import Mathlib

/-!
Verification of `scripts/embed_service.py`, a minimal HTTP embedding
microservice.  The service exposes one endpoint, `POST /embed`: the handler
reads the `text` field of the JSON body (defaulting to the empty string when
the key is absent), calls the sentence-embedding model's `encode` on it,
converts the resulting vector to a plain list, and returns it as the JSON
response body.

Shallow embedding choices:
- JSON values are the inductive `Json`; a parsed JSON object (a Python dict)
  is an association list `List (String × Json)`.
- Vector entries are modelled as rationals (`Rat`): the claims concern the
  structure of the output (length, element-for-element identity), not
  floating-point rounding.
- The sentence-embedding model is an external library, out of scope of the
  repository; following the spec it is an opaque deterministic function from
  strings to fixed-length numeric vectors, carried as a `SentenceTransformer`
  structure parameter.
- Unhandled Python faults in the handler are `Except.error`; the framework
  layer (`handleRequest`) turns them into non-200 responses, and turns a
  non-object or unparseable body into the framework's validation error.
-/

/-- A JSON value, as produced by parsing a request body. -/
inductive Json where
  | null : Json
  | bool : Bool → Json
  | num : Rat → Json
  | str : String → Json
  | arr : List Json → Json
  | obj : List (String × Json) → Json

/-- Whether a JSON value is a string. -/
def Json.isStr : Json → Bool
  | Json.str _ => true
  | _ => false

/-- Python `payload.get(k, d)` on a parsed JSON object: the stored value when
the key is present (even when that value is `null`), the default otherwise. -/
def pyGet (kvs : List (String × Json)) (k : String) (d : Json) : Json :=
  match kvs.lookup k with
  | some v => v
  | none => d

/-- The external sentence-embedding model.  Modelled from the spec: the
library behind `SentenceTransformer("all-MiniLM-L6-v2")` is not part of this
repository; the spec treats it as an opaque function from a string to a
sequence of floats, deterministic and of fixed output dimension. -/
structure SentenceTransformer where
  encode : String → List Rat

/-- An unhandled Python fault inside the handler. -/
inductive Fault where
  | typeFault : Fault

/-- Modelled from the spec: `model.encode(text)` at the Python level.  The
external model is an opaque function on strings, so calling it on any
non-string Python value is an unhandled fault. -/
def encodePy (m : SentenceTransformer) (v : Json) : Except Fault (List Rat) :=
  match v with
  | Json.str s => Except.ok (m.encode s)
  | _ => Except.error Fault.typeFault

/-- `numpy.ndarray.tolist()`: the numeric vector as a plain list.  Both sides
are already `List Rat` in this embedding, so the conversion is the identity. -/
def tolist (v : List Rat) : List Rat := v

/-- The `embed` handler of `POST /embed`:
`text = payload.get("text","")`, `vec = model.encode(text).tolist()`,
`return vec`.  An exception escaping `encode` propagates as `Except.error`. -/
def embed (m : SentenceTransformer) (payload : List (String × Json)) :
    Except Fault (List Rat) :=
  let text := pyGet payload "text" (Json.str "")
  match encodePy m text with
  | Except.ok v => Except.ok (tolist v)
  | Except.error e => Except.error e

/-- An HTTP response: status code and optional JSON body. -/
structure HttpResponse where
  status : Nat
  body : Option Json

/-- The framework layer around the handler, for one `POST /embed` request.
The request body is `none` when it is not parseable as JSON.  FastAPI rejects
an unparseable or non-object body for a `payload: dict` parameter with its
validation-error status 422, returns the handler's value with status 200, and
surfaces an unhandled handler exception as a generic 500 error.  The spec
pins only 200 for success and `not 200` for the failure statuses. -/
def handleRequest (m : SentenceTransformer) (body : Option Json) :
    HttpResponse :=
  match body with
  | some (Json.obj kvs) =>
    match embed m kvs with
    | Except.ok vec => ⟨200, some (Json.arr (vec.map Json.num))⟩
    | Except.error _ => ⟨500, none⟩
  | _ => ⟨422, none⟩

/-- The process state: the single model instance loaded at module import. -/
structure ServerState where
  model : SentenceTransformer

/-- Process startup: `model = SentenceTransformer("all-MiniLM-L6-v2")` runs
once, before the server starts accepting requests. -/
def startup (m : SentenceTransformer) : ServerState :=
  ⟨m⟩

/-- Handling one request: produces a response and the next process state.
The handler body assigns no global and mutates nothing, so the state is
passed through unchanged. -/
def stepRequest (st : ServerState) (body : Option Json) :
    ServerState × HttpResponse :=
  (st, handleRequest st.model body)

/-- The server loop: handle a sequence of requests in order, threading the
process state. -/
def runRequests (st : ServerState) (bodies : List (Option Json)) :
    ServerState × List HttpResponse :=
  match bodies with
  | [] => (st, [])
  | b :: rest =>
    let p := stepRequest st b
    let q := runRequests p.fst rest
    (q.fst, p.snd :: q.snd)

/-- The server's bind configuration. -/
structure ServerConfig where
  host : String
  port : Nat

/-- The `__main__` bootstrap: `uvicorn.run(app, host="0.0.0.0", port=8081)`.
The command line and the environment are taken as arguments to record that
the source consults neither. -/
def mainConfig (_argv : List String) (_env : List (String × String)) :
    ServerConfig :=
  ⟨"0.0.0.0", 8081⟩

/-- A stand-in concrete model used to instantiate theorems on closed inputs:
every string is sent to the zero vector of the default dimension 384. -/
def demoModel : SentenceTransformer :=
  ⟨fun _ => List.replicate 384 0⟩

/-- When the payload holds a string under `text`, the response is 200 with
the encoded vector serialised element-for-element. -/
lemma handleRequest_text_str (m : SentenceTransformer)
    (kvs : List (String × Json)) (s : String)
    (h : kvs.lookup "text" = some (Json.str s)) :
    handleRequest m (some (Json.obj kvs)) =
      ⟨200, some (Json.arr ((m.encode s).map Json.num))⟩ := by
  simp [handleRequest, embed, pyGet, h, encodePy, tolist]

/-- When the payload lacks the `text` key, the handler encodes the default
empty string and answers 200. -/
lemma handleRequest_text_absent (m : SentenceTransformer)
    (kvs : List (String × Json))
    (h : kvs.lookup "text" = none) :
    handleRequest m (some (Json.obj kvs)) =
      ⟨200, some (Json.arr ((m.encode "").map Json.num))⟩ := by
  simp [handleRequest, embed, pyGet, h, encodePy, tolist]

/-- Handling requests never changes the process state. -/
lemma runRequests_fst (st : ServerState) (bodies : List (Option Json)) :
    (runRequests st bodies).fst = st := by
  induction bodies with
  | nil => rfl
  | cons b rest ih => simp [runRequests, stepRequest, ih]

/-- The responses of a request sequence are each computed from that request's
own body alone, with the one startup-loaded model. -/
lemma runRequests_snd (st : ServerState) (bodies : List (Option Json)) :
    (runRequests st bodies).snd = bodies.map (handleRequest st.model) := by
  induction bodies with
  | nil => rfl
  | cons b rest ih => simp [runRequests, stepRequest, ih]

/-- Claim C1: for every `POST /embed` request whose body is a valid JSON
object holding a string under `text`, the handler answers 200 with a JSON
array of exactly N numbers, N being the model's fixed embedding dimension
(384 for the default model). -/
theorem embed_ok_dim (m : SentenceTransformer)
    (hdim : ∀ t, (m.encode t).length = 384)
    (kvs : List (String × Json)) (s : String)
    (h : kvs.lookup "text" = some (Json.str s)) :
    ∃ v : List Rat, v.length = 384 ∧
      handleRequest m (some (Json.obj kvs)) =
        ⟨200, some (Json.arr (v.map Json.num))⟩ :=
  ⟨m.encode s, hdim s, handleRequest_text_str m kvs s h⟩

/-- Claim C1, instantiated on a closed request against the stand-in model. -/
theorem embed_ok_dim_witness :
    ∃ v : List Rat, v.length = 384 ∧
      handleRequest demoModel (some (Json.obj [("text", Json.str "hello")])) =
        ⟨200, some (Json.arr (v.map Json.num))⟩ :=
  embed_ok_dim demoModel (fun _ => List.length_replicate 384 0)
    [("text", Json.str "hello")] "hello" rfl

/-- Claim C2: a JSON-object body without the `text` key raises no
client-visible error; the handler behaves as if `text` were the empty string
and answers 200 with an N-length vector, the embedding of the empty
string. -/
theorem embed_missing_text_defaults_empty (m : SentenceTransformer)
    (hdim : ∀ t, (m.encode t).length = 384)
    (kvs : List (String × Json))
    (h : kvs.lookup "text" = none) :
    handleRequest m (some (Json.obj kvs)) =
      ⟨200, some (Json.arr ((m.encode "").map Json.num))⟩ ∧
      (m.encode "").length = 384 :=
  ⟨handleRequest_text_absent m kvs h, hdim ""⟩

/-- Claim C2, instantiated on a closed request without a `text` key. -/
theorem embed_missing_text_defaults_empty_witness :
    handleRequest demoModel (some (Json.obj [("other", Json.bool true)])) =
      ⟨200, some (Json.arr ((demoModel.encode "").map Json.num))⟩ ∧
      (demoModel.encode "").length = 384 :=
  embed_missing_text_defaults_empty demoModel
    (fun _ => List.length_replicate 384 0) [("other", Json.bool true)] rfl

/-- Claim C3: within any sequence of requests, two requests carrying the same
string value of `text` receive identical responses; the handler is
deterministic and no request changes state observable by a later one. -/
theorem embed_deterministic_across_requests (m : SentenceTransformer)
    (bodies : List (Option Json)) (i j : Nat)
    (kvs1 kvs2 : List (String × Json)) (s : String)
    (hi : bodies[i]? = some (some (Json.obj kvs1)))
    (hj : bodies[j]? = some (some (Json.obj kvs2)))
    (h1 : kvs1.lookup "text" = some (Json.str s))
    (h2 : kvs2.lookup "text" = some (Json.str s)) :
    (runRequests (startup m) bodies).snd[i]? =
      (runRequests (startup m) bodies).snd[j]? := by
  rw [runRequests_snd, List.getElem?_map, List.getElem?_map, hi, hj]
  simp only [Option.map_some']
  rw [show (startup m).model = m from rfl,
    handleRequest_text_str m kvs1 s h1, handleRequest_text_str m kvs2 s h2]

/-- Claim C3, instantiated on a closed two-request sequence sharing the same
`text` value. -/
theorem embed_deterministic_across_requests_witness :
    (runRequests (startup demoModel)
        [some (Json.obj [("text", Json.str "a")]),
          some (Json.obj [("text", Json.str "a"), ("extra", Json.null)])]).snd[0]? =
      (runRequests (startup demoModel)
        [some (Json.obj [("text", Json.str "a")]),
          some (Json.obj [("text", Json.str "a"), ("extra", Json.null)])]).snd[1]? :=
  embed_deterministic_across_requests demoModel
    [some (Json.obj [("text", Json.str "a")]),
      some (Json.obj [("text", Json.str "a"), ("extra", Json.null)])]
    0 1 [("text", Json.str "a")]
    [("text", Json.str "a"), ("extra", Json.null)] "a" rfl rfl rfl rfl

/-- Claim C4: two JSON-object bodies whose `text` lookups agree (both the
same value, or both absent) receive identical responses, whatever their other
keys are; no key other than `text` influences the output. -/
theorem embed_only_text_key_matters (m : SentenceTransformer)
    (kvs1 kvs2 : List (String × Json))
    (h : kvs1.lookup "text" = kvs2.lookup "text") :
    handleRequest m (some (Json.obj kvs1)) =
      handleRequest m (some (Json.obj kvs2)) := by
  simp only [handleRequest, embed, pyGet, h]

/-- Claim C4, instantiated on two closed bodies differing only in extra
keys. -/
theorem embed_only_text_key_matters_witness :
    handleRequest demoModel (some (Json.obj [("text", Json.str "a")])) =
      handleRequest demoModel
        (some (Json.obj [("k", Json.num 7), ("text", Json.str "a")])) :=
  embed_only_text_key_matters demoModel [("text", Json.str "a")]
    [("k", Json.num 7), ("text", Json.str "a")] rfl

/-- Claim C5: a request whose body is not valid JSON, or is valid JSON that
is not an object, receives a response whose status is not 200. -/
theorem embed_nonobject_body_not_ok (m : SentenceTransformer)
    (body : Option Json)
    (h : ∀ kvs, body ≠ some (Json.obj kvs)) :
    (handleRequest m body).status ≠ 200 := by
  cases body with
  | none => simp [handleRequest]
  | some j =>
    cases j with
    | null => simp [handleRequest]
    | bool b => simp [handleRequest]
    | num q => simp [handleRequest]
    | str s => simp [handleRequest]
    | arr l => simp [handleRequest]
    | obj kvs => exact absurd rfl (h kvs)

/-- Claim C5, instantiated on a closed body that is a JSON string, not an
object. -/
theorem embed_nonobject_body_not_ok_witness :
    (handleRequest demoModel (some (Json.str "x"))).status ≠ 200 :=
  embed_nonobject_body_not_ok demoModel (some (Json.str "x"))
    (fun _ h => Json.noConfusion (Option.some.inj h))

/-- Claim C6: a JSON-object body whose `text` value is not a string makes the
handler's model call fault; the framework surfaces a generic server error and
no 200 response is produced. -/
theorem embed_nonstring_text_faults (m : SentenceTransformer)
    (kvs : List (String × Json)) (v : Json)
    (hv : kvs.lookup "text" = some v) (hs : v.isStr = false) :
    handleRequest m (some (Json.obj kvs)) = ⟨500, none⟩ ∧
      (handleRequest m (some (Json.obj kvs))).status ≠ 200 := by
  have hfault : handleRequest m (some (Json.obj kvs)) = ⟨500, none⟩ := by
    cases v with
    | str s => simp [Json.isStr] at hs
    | null => simp [handleRequest, embed, pyGet, hv, encodePy]
    | bool b => simp [handleRequest, embed, pyGet, hv, encodePy]
    | num q => simp [handleRequest, embed, pyGet, hv, encodePy]
    | arr l => simp [handleRequest, embed, pyGet, hv, encodePy]
    | obj o => simp [handleRequest, embed, pyGet, hv, encodePy]
  exact ⟨hfault, by rw [hfault]; simp⟩

/-- Claim C6, instantiated on a closed body carrying a number under
`text`. -/
theorem embed_nonstring_text_faults_witness :
    handleRequest demoModel (some (Json.obj [("text", Json.num 5)])) =
      ⟨500, none⟩ ∧
      (handleRequest demoModel
        (some (Json.obj [("text", Json.num 5)]))).status ≠ 200 :=
  embed_nonstring_text_faults demoModel [("text", Json.num 5)]
    (Json.num 5) rfl rfl

/-- Claim C7: handling a sequence of requests leaves the process state
unchanged, every response is computed from the one model loaded at startup,
and a single step writes no state. -/
theorem embed_requests_preserve_state (m : SentenceTransformer)
    (bodies : List (Option Json)) :
    (runRequests (startup m) bodies).fst = startup m ∧
      (runRequests (startup m) bodies).snd =
        bodies.map (handleRequest m) ∧
      ∀ (st : ServerState) (b : Option Json), (stepRequest st b).fst = st :=
  ⟨runRequests_fst (startup m) bodies,
    runRequests_snd (startup m) bodies,
    fun _ _ => rfl⟩

/-- Claim C8: the `__main__` bootstrap binds host 0.0.0.0 and port 8081,
whatever the command line and the environment are. -/
theorem main_bootstrap_fixed_bind (argv : List String)
    (env : List (String × String)) :
    mainConfig argv env = ⟨"0.0.0.0", 8081⟩ ∧
      ∀ (argv2 : List String) (env2 : List (String × String)),
        mainConfig argv env = mainConfig argv2 env2 :=
  ⟨rfl, fun _ _ => rfl⟩

/-- Claim C9: a body carrying `text` with value null is not defaulted to the
empty string: the null reaches the model call, the request faults, and the
response differs from the absent-key response. -/
theorem embed_null_text_not_defaulted (m : SentenceTransformer)
    (kvs : List (String × Json))
    (h : kvs.lookup "text" = some Json.null) :
    handleRequest m (some (Json.obj kvs)) = ⟨500, none⟩ ∧
      (handleRequest m (some (Json.obj kvs))).status ≠
        (handleRequest m (some (Json.obj []))).status := by
  have hfault : handleRequest m (some (Json.obj kvs)) = ⟨500, none⟩ := by
    simp [handleRequest, embed, pyGet, h, encodePy]
  refine ⟨hfault, ?_⟩
  rw [hfault, handleRequest_text_absent m [] rfl]
  simp

/-- Claim C9, instantiated on a closed body carrying a null `text`. -/
theorem embed_null_text_not_defaulted_witness :
    handleRequest demoModel (some (Json.obj [("text", Json.null)])) =
      ⟨500, none⟩ ∧
      (handleRequest demoModel
          (some (Json.obj [("text", Json.null)]))).status ≠
        (handleRequest demoModel (some (Json.obj []))).status :=
  embed_null_text_not_defaulted demoModel [("text", Json.null)] rfl

/-- Claim C10: on success the response body is the model's raw output
converted element-for-element to a plain list; the list conversion is the
identity and no normalisation, truncation, rounding or reordering is
applied. -/
theorem embed_returns_raw_vector (m : SentenceTransformer)
    (kvs : List (String × Json)) (s : String)
    (h : kvs.lookup "text" = some (Json.str s)) :
    tolist (m.encode s) = m.encode s ∧
      handleRequest m (some (Json.obj kvs)) =
        ⟨200, some (Json.arr ((m.encode s).map Json.num))⟩ :=
  ⟨rfl, handleRequest_text_str m kvs s h⟩

/-- Claim C10, instantiated on a closed request. -/
theorem embed_returns_raw_vector_witness :
    tolist (demoModel.encode "hi") = demoModel.encode "hi" ∧
      handleRequest demoModel (some (Json.obj [("text", Json.str "hi")])) =
        ⟨200, some (Json.arr ((demoModel.encode "hi").map Json.num))⟩ :=
  embed_returns_raw_vector demoModel [("text", Json.str "hi")] "hi" rfl
